import Mathlib

/-!
Verification model of the Pootle store synchronization engine
(src/local_apps/pootle_store/models.py).

Modelling conventions, stated once here:

* A `multistring` (translate-toolkit) is modelled as `List String`; the empty
  list `[]` stands for a database NULL / absent value.  Python truthiness of a
  multistring is the truthiness of its first form (`msBool`); the truthiness
  of `filter(None, strings)` is `anyNonEmpty`.
* MD5 digests are modelled by uninterpreted digest functions passed as
  arguments: `md5 : String → String` for text fields and
  `md5ms : List String → String` for multistring fields.  The code only ever
  stores and compares digests, so nothing about the concrete hash matters.
* External collaborators (file-format library, quality-check runner, cache,
  translation-memory matcher, Django settings) appear as explicit inputs:
  the matcher is a function argument, the cached last-sync comparison is a
  boolean argument, `settings.AUTOSYNC` is taken as disabled, and
  quality-check records (a separate table never read back by the modelled
  code paths) are omitted.
* Database write failures while inserting a new unit record are modelled by
  the `dbError` flag carried on the incoming file unit; the uniqueness
  constraint `unique_together = (store, unitid_hash)` raising `IntegrityError`
  is modelled exactly, from the stored data.
-/

namespace Pootle

/-! ## Store states (models.py lines 51-59) -/

/-- store being modified -/
def LOCKED : Int := -1
/-- store just created, not parsed yet -/
def NEW : Int := 0
/-- store just parsed, units added but no quality checks where run -/
def PARSED : Int := 1
/-- quality checks run -/
def CHECKED : Int := 2

/-! ## Unit states.
Modelled from the spec: the values OBSOLETE, UNTRANSLATED, FUZZY, TRANSLATED
are imported from pootle_store.util, which is not part of this repository
snapshot; the spec fixes them as OBSOLETE(-100), UNTRANSLATED(0), FUZZY(50),
TRANSLATED(200), ordered so that monotone comparisons are meaningful. -/

/-- Modelled from the spec: unit retired from active translation. -/
def OBSOLETE : Int := -100
/-- Modelled from the spec: unit with no accepted translation. -/
def UNTRANSLATED : Int := 0
/-- Modelled from the spec: resolved-but-unverified translation state. -/
def FUZZY : Int := 50
/-- Modelled from the spec: fully resolved translation state. -/
def TRANSLATED : Int := 200

/-- Modelled from the spec: sentinel from pootle_store.fields meaning
"plural form present but not yet filled"; its concrete value is irrelevant. -/
def PLURAL_PLACEHOLDER : String := "POOTLE-PLURAL-PLACEHOLDER"

/-! ## multistring helpers -/

/-- Python truthiness of a multistring: a multistring subclasses unicode and
its value is its first form, so `bool(ms)` is the non-emptiness of the first
form; `[]` stands for None and is falsy. -/
def msBool : List String → Bool
  | [] => false
  | s :: _ => !s.isEmpty

/-- Truthiness of `filter(None, strings)`: at least one non-empty form. -/
def anyNonEmpty (l : List String) : Bool :=
  l.any (fun s => !s.isEmpty)

/-- The unicode value of a multistring: its first form (used where the code
writes `unicode(unit.source)`). -/
def msVal (l : List String) : String := l.headD ""

/-- stringcount (models.py lines 130-134): `len(string.strings)` with plain
strings counting as 1.  A multistring always has at least one form, so the
empty list only arises for plain strings. -/
def stringcountF (l : List String) : Nat :=
  if l.length = 0 then 1 else l.length

/-- Python truthiness of an optional text column (None and "" are falsy). -/
def optTruthy : Option String → Prop
  | none => False
  | some s => s ≠ ""

instance : DecidablePred optTruthy := by
  intro o
  cases o <;> simp [optTruthy] <;> infer_instance

/-- `s or None`: Django text columns store None in place of an empty string. -/
def strOrNone (s : String) : Option String :=
  if s = "" then none else some s

/-! ## Records -/

/-- Suggestion record (models.py lines 81-107): a proposed alternate target
with a digest of its own content, unique per (unit, target_hash). -/
structure Suggestion where
  target_f : List String
  target_hash : String
deriving DecidableEq, Repr

/-- An alternate-translation entry on a file unit (getalttrans). -/
structure AltTrans where
  source : List String
  target : List String
deriving DecidableEq, Repr

/-- A translate-toolkit file unit, as observed by the modelled code: the code
only ever calls getid/getSource/getTarget/hasplural/getnotes/getlocations/
getcontext/isfuzzy/isobsolete/istranslated/istranslatable on it, so those
observations are the fields.  `alttrans = none` models a format without the
alternate-translation capability (the `hasattr` probe failing).  `dbError`
models an external database failure raised while saving the record imported
from this unit. -/
structure FileUnit where
  uid : String
  source : List String
  target : List String
  plural : Bool
  translatorNotes : String
  developerNotes : String
  locations : List String
  context : String
  fuzzy : Bool
  obsolete : Bool
  translated : Bool
  translatable : Bool
  index : Int
  alttrans : Option (List AltTrans)
  dbError : Bool
deriving DecidableEq, Repr

/-- The database unit record (models.py lines 140-182).  The derived
statistics columns (word counts, lengths) are not referenced by any modelled
behaviour and are omitted.  `suggestions` embeds the unit's suggestion_set.
`source_updated`/`target_updated` are the in-memory pending-mutation flags
`_source_updated`/`_target_updated`. -/
structure Unit where
  index : Int
  unitid : String
  unitid_hash : String
  source_f : List String
  source_hash : String
  target_f : List String
  developer_comment : Option String
  translator_comment : Option String
  locations : Option String
  context : Option String
  state : Int
  suggestions : List Suggestion
  source_updated : Bool
  target_updated : Bool
deriving DecidableEq, Repr

/-- A freshly constructed `Unit(store=self, index=index)` before any field
assignment (models.py lines 176-182 plus column defaults). -/
def newUnit (index : Int) : Unit :=
  { index := index, unitid := "", unitid_hash := "", source_f := [],
    source_hash := "", target_f := [], developer_comment := none,
    translator_comment := none, locations := none, context := none,
    state := UNTRANSLATED, suggestions := [], source_updated := false,
    target_updated := false }

/-! ## Unit: accessors and simple mutators -/

/-- `_set_source` (models.py lines 229-231): records the new content and marks
the source as pending; it does NOT recompute `source_hash`. -/
def Unit.set_source (r : Unit) (v : List String) : Unit :=
  { r with source_f := v, source_updated := true }

/-- `_set_target` (models.py lines 238-240). -/
def Unit.set_target (r : Unit) (v : List String) : Unit :=
  { r with target_f := v, target_updated := true }

/-- `setid` (models.py lines 430-432): updates the id and immediately
recomputes its digest. -/
def Unit.setid (md5 : String → String) (r : Unit) (v : String) : Unit :=
  { r with unitid := v, unitid_hash := md5 v }

/-- `getnotes(origin="translator")` on a database unit. -/
def Unit.notesTranslator (r : Unit) : String :=
  r.translator_comment.getD ""

/-- `isfuzzy` (models.py lines 450-451). -/
def Unit.isfuzzy (r : Unit) : Bool :=
  decide (r.state = FUZZY)

/-- `hasplural` (models.py lines 465-467): the stored multistring has no
`plural` attribute, so only the form count matters; `[]` is None. -/
def Unit.hasplural (r : Unit) : Bool :=
  decide (1 < r.source_f.length)

/-- `isobsolete` (models.py lines 469-470). -/
def Unit.isobsolete (r : Unit) : Bool :=
  decide (r.state = OBSOLETE)

/-- `markfuzzy` (models.py lines 453-463): a no-op at or below OBSOLETE. -/
def Unit.markfuzzy (r : Unit) (value : Bool) : Unit :=
  if r.state ≤ OBSOLETE then r
  else if value then { r with state := FUZZY }
  else if r.state ≤ FUZZY then
    if anyNonEmpty r.target_f then { r with state := TRANSLATED }
    else { r with state := UNTRANSLATED }
  else r

/-- `makeobsolete` (models.py lines 472-474). -/
def Unit.makeobsolete (r : Unit) : Unit :=
  if OBSOLETE < r.state then { r with state := OBSOLETE } else r

/-- `resurrect` (models.py lines 476-483). -/
def Unit.resurrect (r : Unit) : Unit :=
  if OBSOLETE < r.state then r
  else if anyNonEmpty r.target_f then { r with state := TRANSLATED }
  else { r with state := UNTRANSLATED }

/-- `istranslated` (models.py lines 485-488): with a pending, non-fuzzy
target mutation the in-memory target is inspected; otherwise the persisted
state is compared against TRANSLATED. -/
def Unit.istranslated (r : Unit) : Bool :=
  if r.target_updated && !r.isfuzzy then anyNonEmpty r.target_f
  else decide (TRANSLATED ≤ r.state)

/-- `save` (models.py lines 184-216), restricted to the modelled columns:
recomputes `source_hash` when a source mutation is pending, adjusts `state`
when a target mutation is pending, then clears both pending flags.
AUTOSYNC is taken as disabled and quality checks / cache invalidation happen
outside the modelled data. -/
def Unit.save (md5ms : List String → String) (r : Unit) : Unit :=
  let r1 := if r.source_updated then { r with source_hash := md5ms r.source_f } else r
  let r2 :=
    if r1.target_updated then
      if anyNonEmpty r1.target_f then
        if r1.state = UNTRANSLATED then { r1 with state := TRANSLATED } else r1
      else if FUZZY < r1.state then { r1 with state := UNTRANSLATED } else r1
    else r1
  { r2 with source_updated := false, target_updated := false }

/-! ## Suggestions -/

/-- `add_suggestion` (models.py lines 548-564).  Returns the updated unit and
the created suggestion, or the unit unchanged and `none` when the translation
is empty, equals the current target, or collides with an existing
suggestion's target digest (the `unique_together = (unit, target_hash)`
IntegrityError swallowed by the bare except). -/
def Unit.add_suggestion (md5ms : List String → String) (r : Unit)
    (translation : List String) (touch : Bool) : Unit × Option Suggestion :=
  if !anyNonEmpty translation then (r, none)
  else if translation = r.target_f then (r, none)
  else
    let sg : Suggestion := { target_f := translation, target_hash := md5ms translation }
    if r.suggestions.any (fun s => s.target_hash == sg.target_hash) then (r, none)
    else
      let r1 := { r with suggestions := r.suggestions ++ [sg] }
      let r2 := if touch then Unit.save md5ms r1 else r1
      (r2, some sg)

/-! ## Unit.update — pull file content into the record (models.py 331-381).
The sequential body is decomposed into one definition per contiguous source
block; `Unit.update` composes them in source order and ORs the per-block
change flags, which is exactly the accumulation of the single `changed`
variable. -/

/-- Source block (lines 334-340). -/
def Unit.updateSource (r : Unit) (u : FileUnit) : Unit × Bool :=
  if r.source_f ≠ u.source ∨ r.source_f.length ≠ stringcountF u.source ∨
      r.hasplural ≠ u.plural then
    (r.set_source (if u.plural ∧ u.source.length = 1 then u.source ++ [PLURAL_PLACEHOLDER] else u.source),
     true)
  else (r, false)

/-- Target block (lines 341-346): the change is only counted when either the
previous or the new target has non-empty content. -/
def Unit.updateTarget (r : Unit) (u : FileUnit) : Unit × Bool :=
  if r.target_f ≠ u.target ∨ r.target_f.length ≠ stringcountF u.target then
    let notempty := anyNonEmpty r.target_f
    let r1 := r.set_target u.target
    if anyNonEmpty r1.target_f || notempty then (r1, true) else (r1, false)
  else (r, false)

/-- Developer-comment block (lines 347-350). -/
def Unit.updateDevComment (r : Unit) (u : FileUnit) : Unit × Bool :=
  let notes := u.developerNotes
  if r.developer_comment ≠ some notes ∧ (optTruthy r.developer_comment ∨ notes ≠ "") then
    ({ r with developer_comment := strOrNone notes }, true)
  else (r, false)

/-- Translator-comment block (lines 351-354). -/
def Unit.updateTransComment (r : Unit) (u : FileUnit) : Unit × Bool :=
  let notes := u.translatorNotes
  if r.translator_comment ≠ some notes ∧ (optTruthy r.translator_comment ∨ notes ≠ "") then
    ({ r with translator_comment := strOrNone notes }, true)
  else (r, false)

/-- Locations block (lines 355-358). -/
def Unit.updateLocations (r : Unit) (u : FileUnit) : Unit × Bool :=
  let locations := String.intercalate "\n" u.locations
  if r.locations ≠ some locations ∧ (optTruthy r.locations ∨ locations ≠ "") then
    ({ r with locations := strOrNone locations }, true)
  else (r, false)

/-- Context block (lines 359-362). -/
def Unit.updateContext (r : Unit) (u : FileUnit) : Unit × Bool :=
  if r.context ≠ some u.context ∧ (optTruthy r.context ∨ u.context ≠ "") then
    ({ r with context := strOrNone u.context }, true)
  else (r, false)

/-- Fuzzy block (lines 363-365). -/
def Unit.updateFuzzy (r : Unit) (u : FileUnit) : Unit × Bool :=
  if r.isfuzzy ≠ u.fuzzy then (r.markfuzzy u.fuzzy, true) else (r, false)

/-- Obsolete block (lines 366-371). -/
def Unit.updateObsolete (r : Unit) (u : FileUnit) : Unit × Bool :=
  if r.isobsolete ≠ u.obsolete then
    ((if u.obsolete then r.makeobsolete else r.resurrect), true)
  else (r, false)

/-- Identity block (lines 372-375): the id digest is recomputed together with
the id itself. -/
def Unit.updateId (md5 : String → String) (r : Unit) (u : FileUnit) : Unit × Bool :=
  if r.unitid ≠ u.uid then
    let newid := if u.uid = "" then msVal u.source else u.uid
    ({ r with unitid := newid, unitid_hash := md5 newid }, true)
  else (r, false)

/-- Alternate-translations block (lines 376-380).  Note the source's
`changed = True` sits inside the for loop but outside the source-equality
guard, so any alttrans entry marks a change. -/
def Unit.updateAlts (md5ms : List String → String) (r : Unit) (u : FileUnit) : Unit × Bool :=
  match u.alttrans with
  | none => (r, false)
  | some alts =>
    (alts.foldl
      (fun acc a =>
        if a.source = acc.source_f then (acc.add_suggestion md5ms a.target false).1 else acc)
      r,
     !alts.isEmpty)

/-- `update` (models.py lines 331-381): update the record from the file unit,
returning whether anything changed. -/
def Unit.update (md5 : String → String) (md5ms : List String → String)
    (r : Unit) (u : FileUnit) : Unit × Bool :=
  let p1 := Unit.updateSource r u
  let p2 := Unit.updateTarget p1.1 u
  let p3 := Unit.updateDevComment p2.1 u
  let p4 := Unit.updateTransComment p3.1 u
  let p5 := Unit.updateLocations p4.1 u
  let p6 := Unit.updateContext p5.1 u
  let p7 := Unit.updateFuzzy p6.1 u
  let p8 := Unit.updateObsolete p7.1 u
  let p9 := Unit.updateId md5 p8.1 u
  let p10 := Unit.updateAlts md5ms p9.1 u
  (p10.1,
   p1.2 || p2.2 || p3.2 || p4.2 || p5.2 || p6.2 || p7.2 || p8.2 || p9.2 || p10.2)

/-! ## Unit.sync — push record content into the file unit (models.py 291-329),
decomposed the same way. -/

/-- The plural padding of lines 299-300: extend with empty strings up to the
language's plural count. -/
def padTarget (nplurals : Nat) (t : List String) : List String :=
  t ++ List.replicate (nplurals - t.length) ""

/-- Target block of sync (lines 294-306). -/
def Unit.syncTarget (nplurals : Nat) (r : Unit) (fu : FileUnit) : FileUnit × Bool :=
  if fu.target ≠ r.target_f then
    if fu.plural then
      let strings :=
        if r.target_f.length < nplurals then padTarget nplurals r.target_f else r.target_f
      if fu.target ≠ strings then ({ fu with target := strings }, true) else (fu, false)
    else ({ fu with target := r.target_f }, true)
  else (fu, false)

/-- Translator-notes block of sync (lines 308-311); the source's trailing
`or ''` is a no-op on the comparison's truth value. -/
def Unit.syncNotes (r : Unit) (fu : FileUnit) : FileUnit × Bool :=
  if fu.translatorNotes ≠ r.notesTranslator then
    ({ fu with translatorNotes := r.notesTranslator }, true)
  else (fu, false)

/-- Fuzzy block of sync (lines 313-315). -/
def Unit.syncFuzzy (r : Unit) (fu : FileUnit) : FileUnit × Bool :=
  if fu.fuzzy ≠ r.isfuzzy then ({ fu with fuzzy := r.isfuzzy }, true) else (fu, false)

/-- Obsolete block of sync (lines 317-319). -/
def Unit.syncObsolete (r : Unit) (fu : FileUnit) : FileUnit × Bool :=
  if r.isobsolete ∧ ¬fu.obsolete then ({ fu with obsolete := true }, true) else (fu, false)

/-- Alternate-translations block of sync (lines 321-328): suggestions are
deduplicated against the file unit's existing alttrans targets, computed once
before the loop. -/
def Unit.syncAlts (r : Unit) (fu : FileUnit) : FileUnit × Bool :=
  match fu.alttrans with
  | none => (fu, false)
  | some alts =>
    if r.suggestions.length ≠ 0 then
      let alttranslist := alts.map (fun a => a.target)
      let toAdd := r.suggestions.filter (fun s => !alttranslist.contains s.target_f)
      ({ fu with alttrans := some (alts ++ toAdd.map (fun s => { source := fu.source, target := s.target_f })) },
       !toAdd.isEmpty)
    else (fu, false)

/-- `sync` (models.py lines 291-329): sync the file unit with translations
from the record, returning whether the file unit was mutated. -/
def Unit.syncUnit (nplurals : Nat) (r : Unit) (fu : FileUnit) : FileUnit × Bool :=
  let p1 := Unit.syncTarget nplurals r fu
  let p2 := Unit.syncNotes r p1.1
  let p3 := Unit.syncFuzzy r p2.1
  let p4 := Unit.syncObsolete r p3.1
  let p5 := Unit.syncAlts r p4.1
  (p5.1, p1.2 || p2.2 || p3.2 || p4.2 || p5.2)

/-! ## Unit.merge (models.py 514-542) -/

/-- The comment step of merge (lines 516-520). -/
def Unit.mergeComment (r : Unit) (u : FileUnit) : Unit × Bool :=
  if u.translatorNotes ≠ "" ∧ r.translator_comment ≠ some u.translatorNotes then
    ({ r with translator_comment := some u.translatorNotes }, true)
  else (r, false)

/-- The precedence core of merge (lines 522-542), applied to the record as
it stands after the comment step, with the accumulated changed flag. -/
def Unit.mergeCore (r1 : Unit) (u : FileUnit) (overwrite changed : Bool) : Unit × Bool :=
  if ¬(msBool u.target = true) then (r1, changed)
  else if msBool r1.target_f = true ∧ overwrite = false then (r1, changed)
  else if r1.istranslated = true ∧ u.translated = false then (r1, changed)
  else
    let r2 := r1.set_target u.target
    let r3 := if r2.source_f ≠ u.source then r2.markfuzzy true else r2.markfuzzy u.fuzzy
    (r3, true)

/-- `merge` (models.py lines 514-542): conservative reconciliation of an
incoming unit into the record.  The `authoritative` parameter of the source
is unused by its body and dropped here. -/
def Unit.merge (r : Unit) (u : FileUnit) (overwrite comments : Bool) : Unit × Bool :=
  let rc := if comments then Unit.mergeComment r u else (r, false)
  Unit.mergeCore rc.1 u overwrite rc.2

/-- `fuzzy_translate` (models.py lines 505-511): merge the matcher's top
candidate; the candidate is reported (so its obsolete donor can be removed)
only when the merge reported a change. -/
def Unit.fuzzy_translate (matcher : List String → List FileUnit) (r : Unit) :
    Unit × Option FileUnit :=
  match matcher r.source_f with
  | [] => (r, none)
  | c :: _ =>
    let res := Unit.merge r c false true
    if res.2 then (res.1, some c) else (res.1, none)

/-- `getlocations` (models.py lines 434-437). -/
def Unit.getlocations (r : Unit) : List String :=
  ((r.locations.getD "").splitOn "\n").filter (fun s => s ≠ "")

/-- `convert` (models.py lines 244-264): export the record as a file unit of
the target format.  Format capabilities (plural detection, alt-trans support)
belong to the external file-format library; plurality is taken from the
source form count and alt-trans capability as absent. -/
def Unit.convert (r : Unit) : FileUnit :=
  { uid := r.unitid, source := r.source_f, target := r.target_f,
    plural := decide (1 < r.source_f.length),
    translatorNotes := r.notesTranslator,
    developerNotes := r.developer_comment.getD "",
    locations := r.getlocations, context := r.context.getD "",
    fuzzy := r.isfuzzy, obsolete := false,
    translated := msBool r.target_f && !r.isfuzzy,
    translatable := true, index := r.index, alttrans := none, dbError := false }

/-! ## Store model.

The store's persisted `state` column is kept apart from the unit/file data it
owns, mirroring the fact that the operation bodies (lines 790-841, 893-934,
1102-1146) read and write units and the backing file but only the lock
brackets touch `state`. -/

/-- Contents of the backing translation file (an ordered unit sequence). -/
structure FileStore where
  units : List FileUnit
deriving DecidableEq, Repr

/-- The data a store owns: its unit records and its backing file
(`none` models a store whose file does not exist yet). -/
structure StoreData where
  units : List Unit
  file : Option FileStore
deriving DecidableEq, Repr

/-- The store record: persisted state plus owned data. -/
structure Store where
  state : Int
  data : StoreData
deriving DecidableEq, Repr

/-- Errors raised by the external database while saving a new unit record. -/
inductive DBErr where
  | integrity
  | fatal
deriving DecidableEq, Repr

/-- `findid` on a file store (translate-toolkit `TranslationStore.findid`):
lookup through the id index, which maps each translatable unit's id to the
unit, later occurrences overwriting earlier ones. -/
def FileStore.findid (f : FileStore) (id : String) : Option FileUnit :=
  ((f.units.filter (fun u => u.translatable)).reverse).find? (fun u => u.uid == id)

/-- `getids` on a file store: ids of the translatable units. -/
def FileStore.getids (f : FileStore) : List String :=
  (f.units.filter (fun u => u.translatable)).map (fun u => u.uid)

/-- `max_index` (models.py lines 978-980). -/
def maxIndex (units : List Unit) : Int :=
  units.foldl (fun m u => max m u.index) (-1)

/-- Replace the stored row of a unit identified by its unitid_hash (the
store-unique key) with its newly saved in-memory value. -/
def replaceByHash (units : List Unit) (h : String) (nu : Unit) : List Unit :=
  units.map (fun w => if w.unitid_hash == h then nu else w)

/-- `_remove_obsolete` (models.py lines 748-764): delete the first obsolete
unit whose source digest matches, if any. -/
def removeObsoleteBySource (md5ms : List String → String)
    (units : List Unit) (source : List String) : List Unit :=
  let h := md5ms source
  match units.findIdx? (fun w => w.source_hash == h && w.state == OBSOLETE) with
  | none => units
  | some i => units.eraseIdx i

/-- `addunit` (models.py lines 982-999) on a persisted store: build a fresh
record from the file unit, then save it.  The insert raises IntegrityError
when another record of the store already carries the same unitid_hash
(`unique_together`), and a fatal error when the external database fails
(the file unit's `dbError` flag). -/
def Store.addunitD (md5 : String → String) (md5ms : List String → String)
    (units : List Unit) (u : FileUnit) (index : Int) :
    Except DBErr (List Unit × Unit) :=
  let newunit := (Unit.update md5 md5ms (newUnit index) u).1
  if u.dbError then .error .fatal
  else if units.any (fun w => w.unitid_hash == newunit.unitid_hash) then .error .integrity
  else
    let saved := Unit.save md5ms newunit
    .ok (units ++ [saved], saved)

/-- The bulk-import loop of `parse` (models.py lines 729-734): every
translatable unit is added at its enumeration index; IntegrityError is
caught and logged per unit, any other error aborts the import. -/
def importAll (md5 : String → String) (md5ms : List String → String)
    (acc : List Unit) : List FileUnit → Int → Except DBErr (List Unit)
  | [], _ => .ok acc
  | u :: rest, idx =>
    if u.translatable then
      match Store.addunitD md5 md5ms acc u idx with
      | .ok (us, _) => importAll md5 md5ms us rest (idx + 1)
      | .error .integrity => importAll md5 md5ms acc rest (idx + 1)
      | .error .fatal => .error .fatal
    else importAll md5 md5ms acc rest (idx + 1)

/-- `parse` (models.py lines 709-746).  The `Except` error value carries the
database state visible to the caller when the exception propagates: all units
of the store deleted and the state restored to its pre-parse value
(lines 735-741).  On success from below PARSED the state becomes PARSED. -/
def Store.parse (md5 : String → String) (md5ms : List String → String)
    (s : Store) (fstore : FileStore) : Except Store Store :=
  if s.state = LOCKED then .ok s
  else if s.state < PARSED then
    match importAll md5 md5ms s.data.units fstore.units 0 with
    | .ok us => .ok ⟨PARSED, us, s.data.file⟩
    | .error _ => .error ⟨s.state, [], s.data.file⟩
  else .ok s

/-- `require_units` (models.py lines 678-685).  The monolingual non-template
branch delegates to the external `update_from_templates` collaborator of the
translation-project module, outside this repository; it is modelled as
leaving this store unchanged.  `fstore` stands for `self.file.store`. -/
def Store.require_units (md5 : String → String) (md5ms : List String → String)
    (fileMono is_template : Bool) (s : Store) (fstore : FileStore) :
    Except Store Store :=
  if s.state < PARSED ∧ s.data.units.isEmpty then
    if s.data.file.isSome ∧ fileMono ∧ ¬is_template then .ok s
    else Store.parse md5 md5ms s fstore
  else .ok s

/-- `fix_monolingual` (models.py lines 112-122), monolingual case: when the
sources differ, the monolingual "source" is actually a translation. -/
def fix_monolingual (oldunit : Unit) (newunit : FileUnit) : FileUnit :=
  if newunit.source ≠ oldunit.source_f then
    { newunit with target := newunit.source, source := oldunit.source_f }
  else newunit

/-! ### Store.update (models.py 766-847) -/

/-- The removed-identities pass of update's structure phase (lines 800-807):
untranslated removed units are deleted; translated ones are obsoleted (and
saved) unless conservative. -/
def updateRemoveMissing (md5ms : List String → String) (conservative : Bool)
    (missing : List String) (units : List Unit) : List Unit :=
  units.filterMap (fun u =>
    if missing.contains u.unitid then
      if !u.istranslated then none
      else if !conservative then some (Unit.save md5ms u.makeobsolete)
      else some u
    else some u)

/-- The added-identities pass of update's structure phase (lines 809-818):
each new file unit becomes a record at the file unit's index; when fuzzy
matching is on and the new record has no target, the matcher's donation is
merged and its obsolete donor removed.  `addunit` errors propagate
(nothing catches IntegrityError here). -/
def updateAddNew (md5 : String → String) (md5ms : List String → String)
    (matcher : List String → List FileUnit) (fuzzy : Bool)
    (d : StoreData) : List FileUnit → Except StoreData StoreData
  | [] => .ok d
  | u :: rest =>
    match Store.addunitD md5 md5ms d.units u u.index with
    | .error _ => .error d
    | .ok (us, newunit) =>
      let d1 : StoreData := { d with units := us }
      let d2 :=
        if fuzzy && !anyNonEmpty newunit.target_f then
          match Unit.fuzzy_translate matcher newunit with
          | (nu, some mu) =>
            let us2 := replaceByHash d1.units newunit.unitid_hash (Unit.save md5ms nu)
            { d1 with units := removeObsoleteBySource md5ms us2 mu.source }
          | (_, none) => d1
        else d1
      updateAddNew md5 md5ms matcher fuzzy d2 rest

/-- The shared-identities pass of update's translation phase (lines 820-840):
each shared record is updated from its file counterpart, index drift is
corrected when restructuring, empty targets may be fuzzy-recovered, and only
records that changed are saved back. -/
def updateShared (md5 : String → String) (md5ms : List String → String)
    (matcher : List String → List FileUnit)
    (fuzzy update_structure monolingual is_template : Bool)
    (f : FileStore) : List String → StoreData → StoreData
  | [], d => d
  | uid :: rest, d =>
    let d' :=
      match d.units.find? (fun w => w.unitid == uid) with
      | none => d
      | some unitR =>
        match f.findid uid with
        | none => d
        | some newunit0 =>
          let newunit :=
            if monolingual && !is_template then fix_monolingual unitR newunit0 else newunit0
          let q1 := Unit.update md5 md5ms unitR newunit
          let q2 : Unit × Bool :=
            if update_structure && (q1.1.index != newunit.index) then
              ({ q1.1 with index := newunit.index }, true)
            else q1
          let q3 : Unit × Bool × Option (List String) :=
            if fuzzy && !anyNonEmpty q2.1.target_f then
              match Unit.fuzzy_translate matcher q2.1 with
              | (nu, some mu) => (nu, true, some mu.source)
              | (nu, none) => (nu, q2.2, none)
            else (q2.1, q2.2, none)
          let units1 :=
            if q3.2.1 then replaceByHash d.units unitR.unitid_hash (Unit.save md5ms q3.1)
            else d.units
          let units2 :=
            match q3.2.2 with
            | some src => removeObsoleteBySource md5ms units1 src
            | none => units1
          { d with units := units2 }
    updateShared md5 md5ms matcher fuzzy update_structure monolingual is_template f rest d'

/-- The locked body of `update` (models.py lines 790-841), over the store's
data; the dbid index covers all units including obsolete ones
(`require_dbid_index(update=True, obsolete=True)`). -/
def Store.updateBody (md5 : String → String) (md5ms : List String → String)
    (matcher : List String → List FileUnit) (monolingual is_template : Bool)
    (d : StoreData) (update_structure update_translation conservative : Bool)
    (f : FileStore) (fuzzy : Bool) : Except StoreData StoreData :=
  let old_ids := d.units.map (fun u => u.unitid)
  let new_ids := f.getids
  let d1 :=
    if update_structure then
      { d with units := (updateRemoveMissing md5ms conservative
          (old_ids.filter (fun i => !new_ids.contains i)) d.units) }
    else d
  match (if update_structure then
          updateAddNew md5 md5ms matcher fuzzy d1
            ((new_ids.filter (fun i => !old_ids.contains i)).filterMap f.findid)
        else .ok d1) with
  | .error d2 => .error d2
  | .ok d2 =>
    let d3 :=
      if update_translation then
        updateShared md5 md5ms matcher fuzzy update_structure monolingual is_template f
          (old_ids.filter (fun i => new_ids.contains i)) d2
      else d2
    .ok d3

/-- `update` (models.py lines 766-847): LOCKED stores are skipped with a log;
unparsed stores are redirected to `parse`; otherwise the store is locked, the
body runs, and the finally clause restores the pre-lock state on every exit
path. -/
def Store.update (md5 : String → String) (md5ms : List String → String)
    (matcher : List String → List FileUnit) (monolingual is_template : Bool)
    (s : Store) (update_structure update_translation conservative : Bool)
    (f : FileStore) (fuzzy : Bool) : Except Store Store :=
  if s.state = LOCKED then .ok s
  else if s.state < PARSED then Store.parse md5 md5ms s f
  else
    let oldstate := s.state
    match Store.updateBody md5 md5ms matcher monolingual is_template s.data
        update_structure update_translation conservative f fuzzy with
    | .ok d => .ok ⟨oldstate, d⟩
    | .error d => .error ⟨oldstate, d⟩

/-! ### Store.sync (models.py 866-934) -/

/-- The shared-identities pass of sync's translation phase (lines 918-928):
each shared record is pushed into its file counterpart through `Unit.sync`;
monolingual untranslated records are skipped. -/
def syncShared (nplurals : Nat) (fileMono : Bool) (units : List Unit) :
    List String → FileStore → FileStore × Bool
  | [], f => (f, false)
  | uid :: rest, f =>
    let step : FileStore × Bool :=
      match units.find? (fun w => w.unitid == uid) with
      | none => (f, false)
      | some u =>
        if fileMono && !u.istranslated then (f, false)
        else
          match f.findid uid with
          | none => (f, false)
          | some m =>
            let res := Unit.syncUnit nplurals u m
            (⟨f.units.map (fun fu =>
                if fu.translatable && fu.uid == uid then res.1 else fu)⟩,
             res.2)
    let next := syncShared nplurals fileMono units rest step.1
    (next.1, step.2 || next.2)

/-- `sync` over the store's data (models.py lines 866-934).  There is no
LOCKED inspection anywhere in this operation.  `last_sync_matches` models the
external cache lookup `last_sync == self.get_mtime()`.  Note the structure
phase's removed-identity loop only mutates file units via `makeobsolete`
(the source's `del unit` deletes a loop variable, not a file unit), and the
dbid index includes obsolete records. -/
def Store.syncData (nplurals : Nat) (last_sync_matches is_template fileMono : Bool)
    (d : StoreData) (update_structure update_translation conservative create : Bool) :
    StoreData :=
  if conservative && last_sync_matches then d
  else
    match d.file with
    | none =>
      if create then
        { d with file := some ⟨(d.units.filter (fun u => OBSOLETE < u.state)).map Unit.convert⟩ }
      else d
    | some f =>
      if conservative && is_template then d
      else
        let old_ids := f.getids
        let new_ids := d.units.map (fun u => u.unitid)
        let step1 : FileStore × Bool :=
          if update_structure then
            let removedIds := old_ids.filter (fun i => !new_ids.contains i)
            let fUnits := f.units.map (fun fu =>
              if fu.translatable && removedIds.contains fu.uid && fu.translated && !conservative then
                { fu with obsolete := true }
              else fu)
            let toAdd := d.units.filter (fun u => !old_ids.contains u.unitid)
            (⟨fUnits ++ toAdd.map Unit.convert⟩, !removedIds.isEmpty || !toAdd.isEmpty)
          else (f, false)
        let step2 : FileStore × Bool :=
          if update_translation then
            syncShared nplurals fileMono d.units
              (old_ids.filter (fun i => new_ids.contains i)) step1.1
          else (step1.1, false)
        { d with file := some step2.1 }

/-- `sync` at store level: it never touches the store's state column. -/
def Store.sync (nplurals : Nat) (last_sync_matches is_template fileMono : Bool)
    (s : Store) (update_structure update_translation conservative create : Bool) :
    Store :=
  { s with data := (Store.syncData nplurals last_sync_matches is_template fileMono
      s.data update_structure update_translation conservative create) }

/-! ### Store.mergefile (models.py 1081-1150) -/

/-- The new-identities pass of mergefile (lines 1110-1115): each genuinely
new file unit is appended as a record at `max_index + 1`; insert errors
propagate. -/
def mergeAddNew (md5 : String → String) (md5ms : List String → String)
    (d : StoreData) : List FileUnit → Except StoreData StoreData
  | [] => .ok d
  | u :: rest =>
    match Store.addunitD md5 md5ms d.units u (maxIndex d.units + 1) with
    | .error _ => .error d
    | .ok (us, _) => mergeAddNew md5 md5ms { d with units := us } rest

/-- The missing-identities pass of mergefile (lines 1118-1125): translated
missing records are obsoleted and saved; untranslated ones are deleted. -/
def mergeObsoleteMissing (md5ms : List String → String)
    (missing : List String) (units : List Unit) : List Unit :=
  units.filterMap (fun u =>
    if missing.contains u.unitid then
      if u.istranslated then some (Unit.save md5ms u.makeobsolete) else none
    else some u)

/-- The shared-identities pass of mergefile (lines 1127-1142): translated
incoming units become suggestions when requested (or translation is
forbidden), otherwise the incoming unit is merged and saved if changed. -/
def mergeShared (md5 : String → String) (md5ms : List String → String)
    (monolingual is_template suggestions notranslate : Bool)
    (newfile : FileStore) : List String → StoreData → StoreData
  | [], d => d
  | uid :: rest, d =>
    let d' :=
      match d.units.find? (fun w => w.unitid == uid) with
      | none => d
      | some oldunit =>
        match newfile.findid uid with
        | none => d
        | some nu0 =>
          let nu :=
            if monolingual && !is_template then fix_monolingual oldunit nu0 else nu0
          if notranslate || (oldunit.istranslated && suggestions) then
            if nu.translated then
              { d with units := (replaceByHash d.units oldunit.unitid_hash
                  (oldunit.add_suggestion md5ms nu.target true).1) }
            else d
          else
            let res := Unit.merge oldunit nu false true
            if res.2 then
              { d with units := (replaceByHash d.units oldunit.unitid_hash
                  (Unit.save md5ms res.1)) }
            else d
    mergeShared md5 md5ms monolingual is_template suggestions notranslate newfile rest d'

/-- The locked body of `mergefile` (models.py lines 1102-1145), over the
store's data, concluding with a non-conservative sync when anything
structural was allowed. -/
def Store.mergefileBody (md5 : String → String) (md5ms : List String → String)
    (nplurals : Nat) (newfileMono fileMono is_template : Bool)
    (d : StoreData) (newfile : FileStore)
    (allownewstrings suggestions notranslate obsoletemissing : Bool) :
    Except StoreData StoreData :=
  let old_ids := d.units.map (fun u => u.unitid)
  let new_ids := newfile.getids
  match (if (!newfileMono || is_template) && allownewstrings then
          mergeAddNew md5 md5ms d
            ((new_ids.filter (fun i => !old_ids.contains i)).filterMap newfile.findid)
        else .ok d) with
  | .error d1 => .error d1
  | .ok d1 =>
    let d2 :=
      if obsoletemissing then
        { d1 with units := (mergeObsoleteMissing md5ms
            (old_ids.filter (fun i => !new_ids.contains i)) d1.units) }
      else d1
    let d3 := mergeShared md5 md5ms newfileMono is_template suggestions notranslate newfile
        (old_ids.filter (fun i => new_ids.contains i)) d2
    let d4 :=
      if allownewstrings || obsoletemissing then
        Store.syncData nplurals false is_template fileMono d3 true true false false
      else d3
    .ok d4

/-- `mergefile` (models.py lines 1081-1150): empty incoming files are
ignored; LOCKED stores are skipped with a log; `require_units` may parse an
unparsed store before the lock is taken; the finally clause restores the
state read after `require_units` on every exit path. -/
def Store.mergefile (md5 : String → String) (md5ms : List String → String)
    (nplurals : Nat) (newfileMono fileMono is_template : Bool)
    (s : Store) (newfile fstore : FileStore)
    (allownewstrings suggestions notranslate obsoletemissing : Bool) :
    Except Store Store :=
  if newfile.units.isEmpty then .ok s
  else if s.state = LOCKED then .ok s
  else
    match Store.require_units md5 md5ms fileMono is_template s fstore with
    | .error s1 => .error s1
    | .ok s1 =>
      let oldstate := s1.state
      match Store.mergefileBody md5 md5ms nplurals newfileMono fileMono is_template
          s1.data newfile allownewstrings suggestions notranslate obsoletemissing with
      | .ok d => .ok ⟨oldstate, d⟩
      | .error d => .error ⟨oldstate, d⟩

/-! ### Operation sequences -/

/-- One invocation of a mutating store operation, with the external inputs it
consumes. -/
inductive StoreOp where
  | parseOp (fstore : FileStore)
  | updateOp (matcher : List String → List FileUnit) (monolingual is_template : Bool)
      (update_structure update_translation conservative : Bool)
      (fstore : FileStore) (fuzzy : Bool)
  | syncOp (nplurals : Nat) (last_sync_matches is_template fileMono : Bool)
      (update_structure update_translation conservative create : Bool)
  | mergefileOp (nplurals : Nat) (newfileMono fileMono is_template : Bool)
      (newfile fstore : FileStore)
      (allownewstrings suggestions notranslate obsoletemissing : Bool)

/-- Run one store operation; an `error` is an exception propagating to the
caller, carrying the database state it leaves behind. -/
def runOp (md5 : String → String) (md5ms : List String → String)
    (s : Store) : StoreOp → Except Store Store
  | .parseOp f => Store.parse md5 md5ms s f
  | .updateOp matcher mono tmpl us ut cons f fz =>
    Store.update md5 md5ms matcher mono tmpl s us ut cons f fz
  | .syncOp np lsm tmpl fm us ut cons cr =>
    .ok (Store.sync np lsm tmpl fm s us ut cons cr)
  | .mergefileOp np nfm fm tmpl nf fs ans sg nt om =>
    Store.mergefile md5 md5ms np nfm fm tmpl s nf fs ans sg nt om

/-- Run a sequence of store operations, stopping at the first exception. -/
def runOps (md5 : String → String) (md5ms : List String → String)
    (s : Store) : List StoreOp → Except Store Store
  | [] => .ok s
  | op :: rest =>
    match runOp md5 md5ms s op with
    | .ok s' => runOps md5 md5ms s' rest
    | .error s' => .error s'

/-! ## Concrete digest functions and example data used by counterexamples
and witnesses.  The digest stand-ins are injective on the inputs involved. -/

/-- A concrete stand-in digest for text fields. -/
def md5c (s : String) : String := String.append "h:" s

/-- A concrete stand-in digest for multistring fields. -/
def md5msc (l : List String) : String := String.append "H:" (String.intercalate "," l)

/-! ## Helper lemmas about the merge comment step -/

lemma mergeComment_eq (r : Unit) (u : FileUnit) :
    (Unit.mergeComment r u).1 =
      { r with translator_comment := (Unit.mergeComment r u).1.translator_comment } := by
  unfold Unit.mergeComment
  split <;> rfl

lemma mergeComment_target (r : Unit) (u : FileUnit) :
    (Unit.mergeComment r u).1.target_f = r.target_f := by
  unfold Unit.mergeComment
  split <;> rfl

lemma mergeComment_state (r : Unit) (u : FileUnit) :
    (Unit.mergeComment r u).1.state = r.state := by
  unfold Unit.mergeComment
  split <;> rfl

lemma mergeComment_istranslated (r : Unit) (u : FileUnit) :
    (Unit.mergeComment r u).1.istranslated = r.istranslated := by
  unfold Unit.mergeComment Unit.istranslated Unit.isfuzzy
  split <;> rfl

lemma markfuzzy_obsolete (r : Unit) (v : Bool) (h : r.state ≤ OBSOLETE) :
    Unit.markfuzzy r v = r := by
  unfold Unit.markfuzzy
  rw [if_pos h]

lemma mergeCore_keep_nonempty (r1 : Unit) (u : FileUnit) (changed : Bool)
    (h : msBool r1.target_f = true) :
    Unit.mergeCore r1 u false changed = (r1, changed) := by
  unfold Unit.mergeCore
  split_ifs with h1 h2 h3
  all_goals first
    | rfl
    | exact absurd ⟨h, rfl⟩ h2

lemma mergeCore_keep_translated (r1 : Unit) (u : FileUnit) (ow changed : Bool)
    (ht : r1.istranslated = true) (hu : u.translated = false) :
    Unit.mergeCore r1 u ow changed = (r1, changed) := by
  unfold Unit.mergeCore
  split_ifs with h1 h2 h3
  all_goals first
    | rfl
    | exact absurd ⟨ht, hu⟩ h3

lemma mergeCore_state_obsolete (r1 : Unit) (u : FileUnit) (ow changed : Bool)
    (h : r1.state ≤ OBSOLETE) :
    (Unit.mergeCore r1 u ow changed).1.state = r1.state := by
  unfold Unit.mergeCore
  have hset : (r1.set_target u.target).state ≤ OBSOLETE := h
  split_ifs
  all_goals first
    | rfl
    | (dsimp only
       split_ifs <;> (rw [markfuzzy_obsolete _ _ hset]; rfl))

/-- Claim C1: for every record and incoming unit, if the record's target is
non-empty (truthy, i.e. its first form is non-empty) and overwrite is false,
merge leaves the record's target unchanged and mutates at most the
translator comment; and whenever the record is istranslated and the incoming
unit is not, the record's target is unchanged regardless of overwrite. -/
theorem merge_precedence (r : Unit) (u : FileUnit) (ow cm : Bool) :
    (msBool r.target_f = true → ow = false →
      (Unit.merge r u ow cm).1.target_f = r.target_f
      ∧ (Unit.merge r u ow cm).1 =
          { r with translator_comment := (Unit.merge r u ow cm).1.translator_comment })
    ∧ (r.istranslated = true → u.translated = false →
      (Unit.merge r u ow cm).1.target_f = r.target_f) := by
  have hcases : (if cm then Unit.mergeComment r u else (r, false)).1.target_f = r.target_f
      ∧ (if cm then Unit.mergeComment r u else (r, false)).1 =
          { r with translator_comment :=
            (if cm then Unit.mergeComment r u else (r, false)).1.translator_comment }
      ∧ (if cm then Unit.mergeComment r u else (r, false)).1.istranslated = r.istranslated := by
    cases cm
    · exact ⟨rfl, rfl, rfl⟩
    · exact ⟨mergeComment_target r u, mergeComment_eq r u, mergeComment_istranslated r u⟩
  constructor
  · intro hm how
    subst how
    simp only [Unit.merge]
    rw [mergeCore_keep_nonempty _ u _ (by rw [hcases.1]; exact hm)]
    exact ⟨hcases.1, hcases.2.1⟩
  · intro ht hu
    simp only [Unit.merge]
    rw [mergeCore_keep_translated _ u ow _ (by rw [hcases.2.2]; exact ht) hu]
    exact hcases.1

/-- Claim C1 witness: a concrete translated record with a non-empty target is
not overwritten by a concrete untranslated incoming unit. -/
theorem merge_precedence_witness :
    (Unit.merge
      { newUnit 0 with target_f := ["bonjour"], state := TRANSLATED }
      { uid := "greeting", source := ["Hello"], target := ["hullo"],
        plural := false, translatorNotes := "", developerNotes := "",
        locations := [], context := "", fuzzy := false, obsolete := false,
        translated := true, translatable := true, index := 0,
        alttrans := none, dbError := false }
      false true).1.target_f = ["bonjour"] :=
  ((merge_precedence
      { newUnit 0 with target_f := ["bonjour"], state := TRANSLATED }
      { uid := "greeting", source := ["Hello"], target := ["hullo"],
        plural := false, translatorNotes := "", developerNotes := "",
        locations := [], context := "", fuzzy := false, obsolete := false,
        translated := true, translatable := true, index := 0,
        alttrans := none, dbError := false }
      false true).1 (by decide) rfl).1

/-! ## C5: hash recomputation -/

/-- Concrete unit whose stored hashes are honest digests of its content. -/
def exUnitC5 : Unit :=
  { newUnit 0 with
    unitid := "greeting",
    unitid_hash := md5c "greeting",
    source_f := ["Hello"],
    source_hash := md5msc ["Hello"] }

/-- Claim C5 counterexample: mutating the source through the source setter
does NOT recompute source_hash at the moment of the mutation; the stale
digest of the old source survives until save. -/
theorem source_hash_lazy_cex :
    (exUnitC5.set_source ["Goodbye"]).source_f = ["Goodbye"]
    ∧ (exUnitC5.set_source ["Goodbye"]).source_hash ≠ md5msc ["Goodbye"] := by
  decide

/-- Claim C5 (amended): setid and the identity branch of update recompute
unitid_hash at the moment of the mutation; the source setter only marks the
mutation pending and source_hash is recomputed by the following save, so the
source digest is lazily updated at save time, not at mutation time. -/
theorem hash_recompute_amended (md5 : String → String) (md5ms : List String → String)
    (r : Unit) (u : FileUnit) (v : String) (w : List String) :
    (Unit.setid md5 r v).unitid = v
    ∧ (Unit.setid md5 r v).unitid_hash = md5 v
    ∧ (r.unitid_hash = md5 r.unitid →
        (Unit.updateId md5 r u).1.unitid_hash = md5 (Unit.updateId md5 r u).1.unitid)
    ∧ (r.set_source w).source_f = w
    ∧ (r.set_source w).source_hash = r.source_hash
    ∧ (Unit.save md5ms (r.set_source w)).source_hash = md5ms w := by
  refine ⟨rfl, rfl, ?_, rfl, rfl, ?_⟩
  · intro h
    unfold Unit.updateId
    split
    · rfl
    · exact h
  · simp only [Unit.save, Unit.set_source]
    split_ifs <;> rfl

/-- Claim C5 (amended) witness at concrete data. -/
theorem hash_recompute_amended_witness :
    (Unit.updateId md5c exUnitC5
      { uid := "farewell", source := ["Bye"], target := [],
        plural := false, translatorNotes := "", developerNotes := "",
        locations := [], context := "", fuzzy := false, obsolete := false,
        translated := false, translatable := true, index := 0,
        alttrans := none, dbError := false }).1.unitid_hash =
    md5c (Unit.updateId md5c exUnitC5
      { uid := "farewell", source := ["Bye"], target := [],
        plural := false, translatorNotes := "", developerNotes := "",
        locations := [], context := "", fuzzy := false, obsolete := false,
        translated := false, translatable := true, index := 0,
        alttrans := none, dbError := false }).1.unitid :=
  (hash_recompute_amended md5c md5msc exUnitC5
    { uid := "farewell", source := ["Bye"], target := [],
      plural := false, translatorNotes := "", developerNotes := "",
      locations := [], context := "", fuzzy := false, obsolete := false,
      translated := false, translatable := true, index := 0,
      alttrans := none, dbError := false } "x" ["y"]).2.2.1 (by decide)

/-! ## C6: istranslated and pending targets -/

/-- A fuzzy unit with a pending non-empty target mutation. -/
def exUnitC6 : Unit :=
  { newUnit 0 with state := FUZZY, target_f := ["oui"], target_updated := true }

/-- Claim C6 counterexample: a unit with a pending non-empty target mutation
whose state is FUZZY: the claim says istranslated inspects the pending
target (giving true); the code falls back to the state comparison and
returns false. -/
theorem istranslated_fuzzy_cex :
    exUnitC6.target_updated = true
    ∧ anyNonEmpty exUnitC6.target_f = true
    ∧ exUnitC6.istranslated = false := by
  decide

/-- Claim C6 (amended): istranslated inspects the pending in-memory target
only when a target mutation is pending AND the unit is not currently fuzzy;
with no pending mutation, or with state FUZZY, it compares the persisted
state against TRANSLATED. -/
theorem istranslated_pending_amended (r : Unit) :
    (r.target_updated = true → r.state ≠ FUZZY →
      r.istranslated = anyNonEmpty r.target_f)
    ∧ (r.target_updated = false → r.istranslated = decide (TRANSLATED ≤ r.state))
    ∧ (r.state = FUZZY → r.istranslated = decide (TRANSLATED ≤ r.state)) := by
  unfold Unit.istranslated Unit.isfuzzy
  refine ⟨?_, ?_, ?_⟩
  · intro h1 h2
    rw [if_pos]
    simp [h1, h2]
  · intro h1
    rw [if_neg]
    simp [h1]
  · intro h1
    rw [if_neg]
    simp [h1]

/-- A pending-target untranslated unit used by the C6 witness. -/
def exUnitC6b : Unit :=
  { newUnit 0 with state := UNTRANSLATED, target_f := ["oui"], target_updated := true }

/-- Claim C6 (amended) witness at concrete data. -/
theorem istranslated_pending_amended_witness :
    exUnitC6b.istranslated = anyNonEmpty exUnitC6b.target_f :=
  (istranslated_pending_amended exUnitC6b).1 rfl (by decide)

/-! ## C7: update's target-change accounting -/

/-- Claim C7: in update, when both the previous and the incoming target have
no non-empty content the target block contributes no change (even if the
plural-form counts differ); when they differ and either side has non-empty
content, it contributes a change. -/
theorem update_target_empty_nochange (r : Unit) (u : FileUnit) :
    (anyNonEmpty r.target_f = false → anyNonEmpty u.target = false →
      (Unit.updateTarget r u).2 = false)
    ∧ (r.target_f ≠ u.target →
      (anyNonEmpty r.target_f = true ∨ anyNonEmpty u.target = true) →
      (Unit.updateTarget r u).2 = true) := by
  unfold Unit.updateTarget Unit.set_target
  constructor
  · intro h1 h2
    split_ifs with hc
    · simp [h1, h2]
    · rfl
  · intro h1 h2
    split_ifs with hc
    · rcases h2 with h2 | h2 <;> simp [h2]
    · exact absurd (Or.inl h1) hc

/-- Claim C7 witness: the target block of update applied at concrete data:
an all-empty two-form target replacing an all-empty one-form target is not a
change; a non-empty differing target is. -/
theorem update_target_empty_nochange_witness :
    (Unit.updateTarget { newUnit 0 with target_f := [""] }
      { uid := "a", source := ["s"], target := ["", ""],
        plural := true, translatorNotes := "", developerNotes := "",
        locations := [], context := "", fuzzy := false, obsolete := false,
        translated := false, translatable := true, index := 0,
        alttrans := none, dbError := false }).2 = false
    ∧ (Unit.updateTarget { newUnit 0 with target_f := [""] }
      { uid := "a", source := ["s"], target := ["x"],
        plural := false, translatorNotes := "", developerNotes := "",
        locations := [], context := "", fuzzy := false, obsolete := false,
        translated := true, translatable := true, index := 0,
        alttrans := none, dbError := false }).2 = true :=
  ⟨(update_target_empty_nochange { newUnit 0 with target_f := [""] }
      { uid := "a", source := ["s"], target := ["", ""],
        plural := true, translatorNotes := "", developerNotes := "",
        locations := [], context := "", fuzzy := false, obsolete := false,
        translated := false, translatable := true, index := 0,
        alttrans := none, dbError := false }).1 (by decide) (by decide),
   (update_target_empty_nochange { newUnit 0 with target_f := [""] }
      { uid := "a", source := ["s"], target := ["x"],
        plural := false, translatorNotes := "", developerNotes := "",
        locations := [], context := "", fuzzy := false, obsolete := false,
        translated := true, translatable := true, index := 0,
        alttrans := none, dbError := false }).2 (by decide) (Or.inr (by decide))⟩

/-! ## C8: plural padding in sync -/

/-- Claim C8: syncing a record with fewer target forms than nplurals into a
pluralized file unit pads the record's target with empty strings to exactly
nplurals forms, writes the padded list only when it differs from the file
unit's current target, and reports no target change when the padded result
equals the current file content. -/
theorem sync_plural_padding (nplurals : Nat) (r : Unit) (fu : FileUnit)
    (hp : fu.plural = true) (hk : r.target_f.length < nplurals) :
    (padTarget nplurals r.target_f).length = nplurals
    ∧ (Unit.syncTarget nplurals r fu).1.target =
        (if fu.target ≠ r.target_f ∧ fu.target ≠ padTarget nplurals r.target_f
         then padTarget nplurals r.target_f else fu.target)
    ∧ ((Unit.syncTarget nplurals r fu).2 = true ↔
        (fu.target ≠ r.target_f ∧ fu.target ≠ padTarget nplurals r.target_f))
    ∧ (fu.target = padTarget nplurals r.target_f →
        Unit.syncTarget nplurals r fu = (fu, false)) := by
  have hlen : (padTarget nplurals r.target_f).length = nplurals := by
    unfold padTarget
    simp only [List.length_append, List.length_replicate]
    omega
  have hne : r.target_f ≠ padTarget nplurals r.target_f := by
    intro habs
    have := congrArg List.length habs
    rw [hlen] at this
    omega
  have heq : Unit.syncTarget nplurals r fu =
      (if fu.target ≠ r.target_f then
        (if fu.target ≠ padTarget nplurals r.target_f then
          ({ fu with target := padTarget nplurals r.target_f }, true)
        else (fu, false))
      else (fu, false)) := by
    unfold Unit.syncTarget
    rw [hp]
    simp only [if_pos hk, if_true]
  by_cases h1 : fu.target = r.target_f
  · have h2 : fu.target ≠ padTarget nplurals r.target_f := by
      rw [h1]; exact hne
    rw [heq, if_neg (by simpa using h1)]
    refine ⟨hlen, ?_, ?_, ?_⟩
    · rw [if_neg]
      simp [h1]
    · simp [h1]
    · intro h
      exact absurd h h2
  · by_cases h2 : fu.target = padTarget nplurals r.target_f
    · rw [heq, if_pos h1, if_neg (by simpa using h2)]
      refine ⟨hlen, ?_, ?_, ?_⟩
      · rw [if_neg]
        simp [h2]
      · simp [h2]
      · intro _
        rfl
    · rw [heq, if_pos h1, if_pos h2]
      refine ⟨hlen, ?_, ?_, ?_⟩
      · rw [if_pos ⟨h1, h2⟩]
      · simp [h1, h2]
      · intro h
        exact absurd h h2

/-- Claim C8 witness at concrete data: one target form padded to three. -/
theorem sync_plural_padding_witness :
    (Unit.syncTarget 3 { newUnit 0 with target_f := ["un"] }
      { uid := "a", source := ["one", "many"], target := ["x", "y", "z"],
        plural := true, translatorNotes := "", developerNotes := "",
        locations := [], context := "", fuzzy := false, obsolete := false,
        translated := true, translatable := true, index := 0,
        alttrans := none, dbError := false }).1.target = ["un", "", ""] := by
  have h := (sync_plural_padding 3 { newUnit 0 with target_f := ["un"] }
      { uid := "a", source := ["one", "many"], target := ["x", "y", "z"],
        plural := true, translatorNotes := "", developerNotes := "",
        locations := [], context := "", fuzzy := false, obsolete := false,
        translated := true, translatable := true, index := 0,
        alttrans := none, dbError := false } rfl (by decide)).2.1
  rw [h]
  decide

/-! ## C9: add_suggestion rejection cases -/

/-- Claim C9: add_suggestion returns None and creates no suggestion when the
proposed translation has no non-empty form, or equals the unit's current
target, or collides with an existing suggestion's target digest; in all of
these cases the unit record is unchanged. -/
theorem add_suggestion_noop (md5ms : List String → String) (r : Unit)
    (t : List String) (touch : Bool)
    (h : anyNonEmpty t = false ∨ t = r.target_f
      ∨ r.suggestions.any (fun s => s.target_hash == md5ms t) = true) :
    Unit.add_suggestion md5ms r t touch = (r, none) := by
  unfold Unit.add_suggestion
  rcases h with h | h | h
  · rw [if_pos]
    rw [h]
    rfl
  · by_cases h1 : (!anyNonEmpty t) = true
    · rw [if_pos h1]
    · rw [if_neg h1, if_pos h]
  · by_cases h1 : (!anyNonEmpty t) = true
    · rw [if_pos h1]
    · rw [if_neg h1]
      by_cases h2 : t = r.target_f
      · rw [if_pos h2]
      · rw [if_neg h2]
        dsimp only
        rw [if_pos h]

/-- A unit already holding a suggestion, used by the C9 witness. -/
def exUnitC9 : Unit :=
  { newUnit 0 with
    target_f := ["bonjour"],
    suggestions := [{ target_f := ["salut"], target_hash := md5msc ["salut"] }] }

/-- Claim C9 witness: a duplicate-digest suggestion is rejected and the unit
is unchanged. -/
theorem add_suggestion_noop_witness :
    Unit.add_suggestion md5msc exUnitC9 ["salut"] true = (exUnitC9, none) :=
  add_suggestion_noop md5msc exUnitC9 ["salut"] true (Or.inr (Or.inr (by decide)))

/-! ## C10: the obsolete state floor -/

/-- Claim C10: for a unit at or below OBSOLETE, markfuzzy is a no-op for
every argument; merging an incoming unit never changes its state (so it can
never become FUZZY); makeobsolete and save leave its state alone; and
resurrect is the operation that raises it above OBSOLETE. -/
theorem obsolete_state_floor (md5ms : List String → String) (r : Unit)
    (u : FileUnit) (v ow cm : Bool) (h : r.state ≤ OBSOLETE) :
    Unit.markfuzzy r v = r
    ∧ (Unit.merge r u ow cm).1.state = r.state
    ∧ (Unit.merge r u ow cm).1.state ≠ FUZZY
    ∧ Unit.makeobsolete r = r
    ∧ (Unit.save md5ms r).state = r.state
    ∧ OBSOLETE < (Unit.resurrect r).state := by
  have hstate1 : (if cm then Unit.mergeComment r u else (r, false)).1.state = r.state := by
    cases cm
    · rfl
    · exact mergeComment_state r u
  have hmerge : (Unit.merge r u ow cm).1.state = r.state := by
    simp only [Unit.merge]
    rw [mergeCore_state_obsolete _ u ow _ (by rw [hstate1]; exact h)]
    exact hstate1
  refine ⟨markfuzzy_obsolete r v h, hmerge, ?_, ?_, ?_, ?_⟩
  · rw [hmerge]
    intro habs
    rw [habs] at h
    norm_num [FUZZY, OBSOLETE] at h
  · unfold Unit.makeobsolete
    rw [if_neg (not_lt.mpr h)]
  · unfold Unit.save
    dsimp only
    split_ifs
    all_goals first
      | rfl
      | (exfalso
         simp only [UNTRANSLATED, OBSOLETE, FUZZY] at *
         omega)
  · unfold Unit.resurrect
    rw [if_neg (not_lt.mpr h)]
    split_ifs <;> norm_num [TRANSLATED, UNTRANSLATED, OBSOLETE]

/-- Claim C10 witness at a concrete obsolete unit. -/
theorem obsolete_state_floor_witness :
    Unit.markfuzzy { newUnit 0 with state := OBSOLETE, target_f := ["x"] } true =
      { newUnit 0 with state := OBSOLETE, target_f := ["x"] } :=
  (obsolete_state_floor md5msc { newUnit 0 with state := OBSOLETE, target_f := ["x"] }
    { uid := "a", source := ["s"], target := ["y"],
      plural := false, translatorNotes := "", developerNotes := "",
      locations := [], context := "", fuzzy := true, obsolete := false,
      translated := true, translatable := true, index := 0,
      alttrans := none, dbError := false }
    true false true (by decide)).1

/-! ## Store-level helper lemmas: how each operation moves the state column -/

lemma parse_ok_state (md5 : String → String) (md5ms : List String → String)
    (s : Store) (f : FileStore) (s' : Store)
    (h : Store.parse md5 md5ms s f = .ok s') :
    s'.state = s.state ∨ (s.state < PARSED ∧ s'.state = PARSED) := by
  unfold Store.parse at h
  by_cases h1 : s.state = LOCKED
  · rw [if_pos h1] at h
    cases h
    exact Or.inl rfl
  · rw [if_neg h1] at h
    by_cases h2 : s.state < PARSED
    · rw [if_pos h2] at h
      split at h
      · cases h
        exact Or.inr ⟨h2, rfl⟩
      · cases h
    · rw [if_neg h2] at h
      cases h
      exact Or.inl rfl

lemma parse_error_state (md5 : String → String) (md5ms : List String → String)
    (s : Store) (f : FileStore) (s' : Store)
    (h : Store.parse md5 md5ms s f = .error s') :
    s'.state = s.state ∧ s'.data.units = [] := by
  unfold Store.parse at h
  by_cases h1 : s.state = LOCKED
  · rw [if_pos h1] at h
    cases h
  · rw [if_neg h1] at h
    by_cases h2 : s.state < PARSED
    · rw [if_pos h2] at h
      split at h
      · cases h
      · cases h
        exact ⟨rfl, rfl⟩
    · rw [if_neg h2] at h
      cases h

lemma update_ok_state (md5 : String → String) (md5ms : List String → String)
    (matcher : List String → List FileUnit) (mono tmpl : Bool)
    (s : Store) (us ut cons : Bool) (f : FileStore) (fz : Bool) (s' : Store)
    (h : Store.update md5 md5ms matcher mono tmpl s us ut cons f fz = .ok s') :
    s'.state = s.state ∨ (s.state < PARSED ∧ s'.state = PARSED) := by
  unfold Store.update at h
  by_cases h1 : s.state = LOCKED
  · rw [if_pos h1] at h
    cases h
    exact Or.inl rfl
  · rw [if_neg h1] at h
    by_cases h2 : s.state < PARSED
    · rw [if_pos h2] at h
      exact parse_ok_state md5 md5ms s f s' h
    · rw [if_neg h2] at h
      dsimp only at h
      split at h
      · cases h
        exact Or.inl rfl
      · cases h

lemma update_error_state (md5 : String → String) (md5ms : List String → String)
    (matcher : List String → List FileUnit) (mono tmpl : Bool)
    (s : Store) (us ut cons : Bool) (f : FileStore) (fz : Bool) (s' : Store)
    (h : Store.update md5 md5ms matcher mono tmpl s us ut cons f fz = .error s') :
    s'.state = s.state := by
  unfold Store.update at h
  by_cases h1 : s.state = LOCKED
  · rw [if_pos h1] at h
    cases h
  · rw [if_neg h1] at h
    by_cases h2 : s.state < PARSED
    · rw [if_pos h2] at h
      exact (parse_error_state md5 md5ms s f s' h).1
    · rw [if_neg h2] at h
      dsimp only at h
      split at h
      · cases h
      · cases h
        rfl

lemma require_units_ok_state (md5 : String → String) (md5ms : List String → String)
    (fm tmpl : Bool) (s : Store) (fstore : FileStore) (s' : Store)
    (h : Store.require_units md5 md5ms fm tmpl s fstore = .ok s') :
    s'.state = s.state ∨ (s.state < PARSED ∧ s'.state = PARSED) := by
  unfold Store.require_units at h
  by_cases h1 : s.state < PARSED ∧ s.data.units.isEmpty = true
  · rw [if_pos h1] at h
    by_cases h2 : s.data.file.isSome = true ∧ fm = true ∧ ¬tmpl = true
    · rw [if_pos h2] at h
      cases h
      exact Or.inl rfl
    · rw [if_neg h2] at h
      exact parse_ok_state md5 md5ms s fstore s' h
  · rw [if_neg h1] at h
    cases h
    exact Or.inl rfl

lemma require_units_error_state (md5 : String → String) (md5ms : List String → String)
    (fm tmpl : Bool) (s : Store) (fstore : FileStore) (s' : Store)
    (h : Store.require_units md5 md5ms fm tmpl s fstore = .error s') :
    s'.state = s.state := by
  unfold Store.require_units at h
  by_cases h1 : s.state < PARSED ∧ s.data.units.isEmpty = true
  · rw [if_pos h1] at h
    by_cases h2 : s.data.file.isSome = true ∧ fm = true ∧ ¬tmpl = true
    · rw [if_pos h2] at h
      cases h
    · rw [if_neg h2] at h
      exact (parse_error_state md5 md5ms s fstore s' h).1
  · rw [if_neg h1] at h
    cases h

lemma mergefile_ok_state (md5 : String → String) (md5ms : List String → String)
    (np : Nat) (nfm fm tmpl : Bool) (s : Store) (nf fstore : FileStore)
    (ans sg nt om : Bool) (s' : Store)
    (h : Store.mergefile md5 md5ms np nfm fm tmpl s nf fstore ans sg nt om = .ok s') :
    s'.state = s.state ∨ (s.state < PARSED ∧ s'.state = PARSED) := by
  unfold Store.mergefile at h
  by_cases h1 : nf.units.isEmpty = true
  · rw [if_pos h1] at h
    cases h
    exact Or.inl rfl
  · rw [if_neg h1] at h
    by_cases h2 : s.state = LOCKED
    · rw [if_pos h2] at h
      cases h
      exact Or.inl rfl
    · rw [if_neg h2] at h
      revert h
      cases hr : Store.require_units md5 md5ms fm tmpl s fstore with
      | error s1 =>
        intro h
        cases h
      | ok s1 =>
        intro h
        dsimp only at h
        split at h
        · cases h
          exact require_units_ok_state md5 md5ms fm tmpl s fstore s1 hr
        · cases h

lemma mergefile_error_state (md5 : String → String) (md5ms : List String → String)
    (np : Nat) (nfm fm tmpl : Bool) (s : Store) (nf fstore : FileStore)
    (ans sg nt om : Bool) (s' : Store)
    (h : Store.mergefile md5 md5ms np nfm fm tmpl s nf fstore ans sg nt om = .error s') :
    s'.state = s.state ∨ (s.state < PARSED ∧ s'.state = PARSED) := by
  unfold Store.mergefile at h
  by_cases h1 : nf.units.isEmpty = true
  · rw [if_pos h1] at h
    cases h
  · rw [if_neg h1] at h
    by_cases h2 : s.state = LOCKED
    · rw [if_pos h2] at h
      cases h
    · rw [if_neg h2] at h
      revert h
      cases hr : Store.require_units md5 md5ms fm tmpl s fstore with
      | error s1 =>
        intro h
        cases h
        exact Or.inl (require_units_error_state md5 md5ms fm tmpl s fstore s' hr)
      | ok s1 =>
        intro h
        dsimp only at h
        split at h
        · cases h
        · cases h
          exact require_units_ok_state md5 md5ms fm tmpl s fstore s1 hr

lemma runOp_ok_state (md5 : String → String) (md5ms : List String → String)
    (s : Store) (op : StoreOp) (s' : Store)
    (h : runOp md5 md5ms s op = .ok s') :
    s'.state = s.state ∨ (s.state < PARSED ∧ s'.state = PARSED) := by
  cases op with
  | parseOp f => exact parse_ok_state md5 md5ms s f s' h
  | updateOp matcher mono tmpl us ut cons f fz =>
    exact update_ok_state md5 md5ms matcher mono tmpl s us ut cons f fz s' h
  | syncOp np lsm tmpl fm us ut cons cr =>
    cases h
    exact Or.inl rfl
  | mergefileOp np nfm fm tmpl nf fs ans sg nt om =>
    exact mergefile_ok_state md5 md5ms np nfm fm tmpl s nf fs ans sg nt om s' h

lemma runOp_error_state (md5 : String → String) (md5ms : List String → String)
    (s : Store) (op : StoreOp) (s' : Store)
    (h : runOp md5 md5ms s op = .error s') :
    s'.state = s.state ∨ (s.state < PARSED ∧ s'.state = PARSED) := by
  cases op with
  | parseOp f => exact Or.inl (parse_error_state md5 md5ms s f s' h).1
  | updateOp matcher mono tmpl us ut cons f fz =>
    exact Or.inl (update_error_state md5 md5ms matcher mono tmpl s us ut cons f fz s' h)
  | syncOp np lsm tmpl fm us ut cons cr => cases h
  | mergefileOp np nfm fm tmpl nf fs ans sg nt om =>
    exact mergefile_error_state md5 md5ms np nfm fm tmpl s nf fs ans sg nt om s' h

lemma state_step_le (a b : Int) (hL : a ≠ LOCKED)
    (h : b = a ∨ (a < PARSED ∧ b = PARSED)) : a ≤ b ∧ b ≠ LOCKED := by
  rcases h with h | h
  · rw [h]
    exact ⟨le_refl a, hL⟩
  · rw [h.2]
    exact ⟨le_of_lt h.1, by norm_num [PARSED, LOCKED]⟩

lemma runOps_state_le (md5 : String → String) (md5ms : List String → String) :
    ∀ (ops : List StoreOp) (s s' : Store), s.state ≠ LOCKED →
      (runOps md5 md5ms s ops = .ok s' ∨ runOps md5 md5ms s ops = .error s') →
      s.state ≤ s'.state := by
  intro ops
  induction ops with
  | nil =>
    intro s s' hL h
    rcases h with h | h
    · cases h
      exact le_refl _
    · cases h
  | cons op rest ih =>
    intro s s' hL h
    have hmain : ∀ s1, runOp md5 md5ms s op = .ok s1 →
        (runOps md5 md5ms s1 rest = .ok s' ∨ runOps md5 md5ms s1 rest = .error s') →
        s.state ≤ s'.state := by
      intro s1 hop hrest
      have hstep := state_step_le s.state s1.state hL (runOp_ok_state md5 md5ms s op s1 hop)
      exact le_trans hstep.1 (ih s1 s' hstep.2 hrest)
    rcases h with h | h
    · revert h
      unfold runOps
      cases hop : runOp md5 md5ms s op with
      | ok s1 =>
        intro h
        exact hmain s1 hop (Or.inl h)
      | error s1 =>
        intro h
        cases h
    · revert h
      unfold runOps
      cases hop : runOp md5 md5ms s op with
      | ok s1 =>
        intro h
        exact hmain s1 hop (Or.inr h)
      | error s1 =>
        intro h
        cases h
        exact (state_step_le s.state s'.state hL
          (runOp_error_state md5 md5ms s op s' hop)).1

/-! ## C2: the LOCKED guard -/

/-- A locked store with no backing file. -/
def lockedStoreEx : Store := ⟨LOCKED, ⟨[], none⟩⟩

/-- Claim C2 counterexample: `sync` performs no LOCKED inspection at all.  On
a LOCKED store with no backing file, sync with create requested mutates the
store (it creates and attaches the backing file) instead of returning
untouched. -/
theorem sync_ignores_locked_cex :
    lockedStoreEx.state = LOCKED
    ∧ Store.sync 2 false false false lockedStoreEx false false false true ≠ lockedStoreEx
    ∧ (Store.sync 2 false false false lockedStoreEx false false false true).data.file ≠ none := by
  refine ⟨rfl, by decide, by decide⟩

/-- Claim C2 (amended): parse, update and mergefile inspect the LOCKED state
at their start and, on a LOCKED store, return immediately without touching
the store (no waiting, retrying, or mutation); sync, however, performs no
LOCKED inspection and can mutate a LOCKED store and its backing file. -/
theorem locked_guard_amended (md5 : String → String) (md5ms : List String → String)
    (matcher : List String → List FileUnit) (s : Store) (f nf : FileStore)
    (mono tmpl nfm fm us ut cons fz ans sg nt om : Bool) (np : Nat)
    (h : s.state = LOCKED) :
    Store.parse md5 md5ms s f = .ok s
    ∧ Store.update md5 md5ms matcher mono tmpl s us ut cons f fz = .ok s
    ∧ Store.mergefile md5 md5ms np nfm fm tmpl s nf f ans sg nt om = .ok s
    ∧ Store.sync 2 false false false lockedStoreEx false false false true ≠ lockedStoreEx := by
  refine ⟨?_, ?_, ?_, by decide⟩
  · unfold Store.parse
    rw [if_pos h]
  · unfold Store.update
    rw [if_pos h]
  · unfold Store.mergefile
    by_cases he : nf.units.isEmpty = true
    · rw [if_pos he]
    · rw [if_neg he, if_pos h]

/-- Claim C2 (amended) witness at a concrete LOCKED store. -/
theorem locked_guard_amended_witness :
    Store.parse md5c md5msc lockedStoreEx ⟨[]⟩ = .ok lockedStoreEx :=
  (locked_guard_amended md5c md5msc (fun _ => []) lockedStoreEx ⟨[]⟩ ⟨[]⟩
    false false false false false false false false false false false false 2 rfl).1

/-! ## C3: state monotonicity and restoration -/

/-- Convenience constructor for example file units. -/
def mkFileUnit (uid : String) (src tgt : List String) : FileUnit :=
  { uid := uid, source := src, target := tgt, plural := false,
    translatorNotes := "", developerNotes := "", locations := [], context := "",
    fuzzy := false, obsolete := false, translated := anyNonEmpty tgt,
    translatable := true, index := 0, alttrans := none, dbError := false }

/-- A fresh store in state NEW with no units and no backing file. -/
def newStoreEx : Store := ⟨NEW, ⟨[], none⟩⟩

/-- A one-unit translatable backing file. -/
def parseFileEx : FileStore := ⟨[mkFileUnit "greeting" ["Hello"] []]⟩

/-- The store visible to the caller on either exit of an operation. -/
def exceptState : Except Store Store → Int
  | .ok s => s.state
  | .error s => s.state

/-- Claim C3 counterexample: a successful parse of a NEW store completes
with state PARSED, not with its pre-call state value, so parse does not
restore its pre-call state by completion. -/
theorem parse_not_restore_cex :
    newStoreEx.state = NEW
    ∧ exceptState (Store.parse md5c md5msc newStoreEx parseFileEx) = PARSED
    ∧ (NEW : Int) ≠ PARSED := by
  decide

/-- Claim C3 (amended): across every operation, the state either keeps its
pre-call value or — only when the store entered below PARSED — becomes
PARSED (the parse path), on both normal and exceptional exit; consequently
over any operation sequence a non-LOCKED state value never decreases. -/
theorem state_monotone_amended (md5 : String → String) (md5ms : List String → String)
    (s : Store) (op : StoreOp) (ops : List StoreOp) :
    (∀ s', runOp md5 md5ms s op = .ok s' →
      s'.state = s.state ∨ (s.state < PARSED ∧ s'.state = PARSED))
    ∧ (∀ s', runOp md5 md5ms s op = .error s' →
      s'.state = s.state ∨ (s.state < PARSED ∧ s'.state = PARSED))
    ∧ (∀ s', s.state ≠ LOCKED →
      (runOps md5 md5ms s ops = .ok s' ∨ runOps md5 md5ms s ops = .error s') →
      s.state ≤ s'.state) :=
  ⟨fun s' h => runOp_ok_state md5 md5ms s op s' h,
   fun s' h => runOp_error_state md5 md5ms s op s' h,
   fun s' hL h => runOps_state_le md5 md5ms ops s s' hL h⟩

/-- The store produced by parsing the example file into the example store. -/
def parsedStoreEx : Store :=
  match Store.parse md5c md5msc newStoreEx parseFileEx with
  | .ok s => s
  | .error s => s

/-- Claim C3 (amended) witness: the concrete parse of a NEW store lands in
the allowed alternative (entered below PARSED, completed at PARSED). -/
theorem state_monotone_amended_witness :
    parsedStoreEx.state = newStoreEx.state
    ∨ (newStoreEx.state < PARSED ∧ parsedStoreEx.state = PARSED) :=
  (state_monotone_amended md5c md5msc newStoreEx (StoreOp.parseOp parseFileEx) []).1
    parsedStoreEx rfl

/-! ## C4: atomic rollback of parse -/

lemma importAll_any_fatal (md5 : String → String) (md5ms : List String → String) :
    ∀ (us : List FileUnit) (acc : List Unit) (idx : Int),
      us.any (fun u => u.translatable && u.dbError) = true →
      importAll md5 md5ms acc us idx = .error .fatal := by
  intro us
  induction us with
  | nil =>
    intro acc idx h
    cases h
  | cons u rest ih =>
    intro acc idx h
    unfold importAll
    by_cases ht : u.translatable = true
    · rw [if_pos ht]
      by_cases hd : u.dbError = true
      · have hfat : Store.addunitD md5 md5ms acc u idx = .error .fatal := by
          unfold Store.addunitD
          rw [if_pos hd]
        rw [hfat]
      · have hrest : rest.any (fun u => u.translatable && u.dbError) = true := by
          simp only [List.any_cons, Bool.or_eq_true, Bool.and_eq_true] at h
          rcases h with h | h
          · exact absurd h.2 hd
          · simpa [Bool.and_eq_true] using h
        cases haddu : Store.addunitD md5 md5ms acc u idx with
        | ok p =>
          obtain ⟨us2, nu⟩ := p
          exact ih us2 (idx + 1) hrest
        | error e =>
          cases e
          · exact ih acc (idx + 1) hrest
          · rfl
    · rw [if_neg ht]
      have hrest : rest.any (fun u => u.translatable && u.dbError) = true := by
        simp only [List.any_cons, Bool.or_eq_true, Bool.and_eq_true] at h
        rcases h with h | h
        · exact absurd h.1 ht
        · simpa [Bool.and_eq_true] using h
      exact ih acc (idx + 1) hrest

/-- Claim C4: if parse raises mid-import, then by the time the exception
reaches the caller every record created during the attempt has been deleted
(the store's unit set is empty) and the state is restored to its pre-parse
value; the exception is re-raised, not swallowed — in particular any
external database failure during the import surfaces as a propagated
error carrying exactly the rolled-back store. -/
theorem parse_atomic_rollback (md5 : String → String) (md5ms : List String → String)
    (s : Store) (f : FileStore) (h1 : s.state ≠ LOCKED) (h2 : s.state < PARSED) :
    (∀ s', Store.parse md5 md5ms s f = .error s' →
      s'.state = s.state ∧ s'.data.units = [])
    ∧ (f.units.any (fun u => u.translatable && u.dbError) = true →
      Store.parse md5 md5ms s f = .error ⟨s.state, [], s.data.file⟩) := by
  constructor
  · intro s' h
    exact parse_error_state md5 md5ms s f s' h
  · intro hany
    unfold Store.parse
    rw [if_neg h1, if_pos h2, importAll_any_fatal md5 md5ms f.units s.data.units 0 hany]

/-- A backing file whose only unit triggers an external database failure. -/
def fatalFileEx : FileStore :=
  ⟨[{ mkFileUnit "boom" ["Kaboom"] [] with dbError := true }]⟩

/-- Claim C4 witness: the concrete failing parse rolls back and re-raises. -/
theorem parse_atomic_rollback_witness :
    Store.parse md5c md5msc newStoreEx fatalFileEx =
      .error ⟨newStoreEx.state, [], newStoreEx.data.file⟩ :=
  (parse_atomic_rollback md5c md5msc newStoreEx fatalFileEx
    (by decide) (by decide)).2 (by decide)

end Pootle
